import Mathlib

/-!
Verification of `deploy_django.py`, an interactive assistant that renders a
systemd unit and an nginx virtual host for a Django/Gunicorn deployment,
creates directories, and invokes service-control commands.

The script is embedded shallowly:
* operator input lines are a fixed record (`Inputs`) — each prompt consumes
  exactly one line read by Python's `input()`, so every prompted value is a
  single line without a newline;
* the pre-existing filesystem is a pair of predicates (`FS`);
* prompt handling (`input_with_help`), port parsing, template rendering
  (`service_content`, `nginx_content`), the summary, the confirmation check,
  the symlink step and the example URL mirror the corresponding lines of the
  source one for one;
* the side effects of a run (directory creation, file writes, shell commands)
  are collected as a trace (`List Effect`) by `mainRun`, which also reports
  how the process ends (`Outcome`).

String primitives of Python are modelled on ASCII data: `str.strip` removes
the six ASCII whitespace characters, `str.lower` maps A–Z to a–z and
`str.isdigit` accepts exactly the ASCII digits 0–9.
-/

/-- The characters removed by Python's `str.strip()` (ASCII whitespace). -/
def isPySpace (c : Char) : Bool :=
  c == ' ' || c == '\t' || c == '\n' || c == '\r' || c == '\x0b' || c == '\x0c'

/-- Python's `s.strip()`: drop leading and trailing whitespace. -/
def pythonStrip (s : String) : String :=
  ⟨((s.data.dropWhile isPySpace).reverse.dropWhile isPySpace).reverse⟩

/-- Python's `s.lower()` on ASCII letters. -/
def asciiLower (s : String) : String :=
  ⟨s.data.map Char.toLower⟩

/-- Python's `s.isdigit()` restricted to ASCII: nonempty and all digits 0–9. -/
def pyIsdigit (s : String) : Bool :=
  !s.data.isEmpty && s.data.all Char.isDigit

/-- Python's `int(s)` on a string of ASCII digits (decimal value). -/
def decimalValue (s : String) : Nat :=
  s.data.foldl (fun n c => n * 10 + (c.toNat - 48)) 0

/-- `input_with_help` (deploy_django.py lines 42–53), with the print-only
`prompt`/`help_text` arguments dropped: the entered line is stripped and, when
a default exists and the stripped line is empty, the default is returned
(Python's `value or default`). -/
def input_with_help (raw : String) (default : Option String) : String :=
  match default with
  | some d =>
    let value := pythonStrip raw
    if value = "" then d else value
  | none => pythonStrip raw

/-- POSIX `os.path.join` on two components: an absolute second component wins;
otherwise a `/` separator is inserted unless the first component is empty or
already ends in `/`. -/
def ospath_join2 (a b : String) : String :=
  if b.data.head? = some '/' then b
  else if a.data = [] ∨ a.data.getLast? = some '/' then a ++ b
  else a ++ "/" ++ b

/-- The fixed system paths of deploy_django.py lines 23–25. -/
def NGINX_AVAILABLE : String := "/etc/nginx/sites-available"

def NGINX_ENABLED : String := "/etc/nginx/sites-enabled"

def SYSTEMD_DIR : String := "/etc/systemd/system"

/-- The collected configuration record (spec §3 `DeploymentConfig`); the
prompted fields of `main`, after stripping and default substitution. -/
structure DeploymentConfig where
  project_name : String
  domain : String
  listen_port : Nat
  project_root : String
  venv_path : String
  linux_user : String
  linux_group : String
  wsgi_module : String
  static_root : String
  media_root : String
deriving DecidableEq

/-- `gunicorn_bin = os.path.join(venv_path, "bin", "gunicorn")` (line 155). -/
def gunicorn_bin (c : DeploymentConfig) : String :=
  ospath_join2 (ospath_join2 c.venv_path "bin") "gunicorn"

/-- `socket_path = f"/run/gunicorn-{project_name}.sock"` (line 158). -/
def socket_path (c : DeploymentConfig) : String :=
  "/run/gunicorn-" ++ c.project_name ++ ".sock"

/-- `service_path = os.path.join(SYSTEMD_DIR, f"{project_name}.service")` (line 194). -/
def service_path (c : DeploymentConfig) : String :=
  ospath_join2 SYSTEMD_DIR (c.project_name ++ ".service")

/-- `nginx_conf_path = os.path.join(NGINX_AVAILABLE, project_name)` (line 223). -/
def nginx_conf_path (c : DeploymentConfig) : String :=
  ospath_join2 NGINX_AVAILABLE c.project_name

/-- `nginx_link = os.path.join(NGINX_ENABLED, project_name)` (line 255). -/
def nginx_link (c : DeploymentConfig) : String :=
  ospath_join2 NGINX_ENABLED c.project_name

/-- Port parsing (lines 92–96): a non-digit string falls back to 80 with a
warning printed (second component `true`); a digit string is parsed with
`int`. -/
def parse_port (raw : String) : Nat × Bool :=
  if !(pyIsdigit raw) then (80, true) else (decimalValue raw, false)

/-- The systemd unit text (lines 196–216): the f-string template after
`textwrap.dedent` and `.strip() + "\n"`, which on this constant template
removes the common 8-space indent, the leading newline and the trailing
indent (prompted values are single non-empty lines starting with a
non-whitespace character, so they cannot change the dedent prefix). -/
def service_content (c : DeploymentConfig) : String :=
  "[Unit]\nDescription=Gunicorn service for " ++ c.project_name ++
  "\nAfter=network.target\n\n[Service]\nUser=" ++ c.linux_user ++
  "\nGroup=" ++ c.linux_group ++
  "\nWorkingDirectory=" ++ c.project_root ++
  "\nEnvironment=\"PATH=" ++ c.venv_path ++ "/bin\"\nExecStart=" ++
  gunicorn_bin c ++
  " \\\n    --workers 3 \\\n    --bind unix:" ++ socket_path c ++
  " \\\n    " ++ c.wsgi_module ++
  "\n\nRestart=always\nRestartSec=5\n\n[Install]\nWantedBy=multi-user.target\n"

/-- The nginx virtual-host text (lines 225–248), after `textwrap.dedent` and
`.strip() + "\n"` exactly as for `service_content`. -/
def nginx_content (c : DeploymentConfig) : String :=
  "server \x7b\n    # PUERTO PÚBLICO: aquí escucha Nginx hacia Internet\n    listen " ++
  toString c.listen_port ++
  ";\n    server_name " ++ c.domain ++
  ";\n\n    # Archivos estáticos\n    location /static/ \x7b\n        alias " ++
  c.static_root ++
  ";\n    \x7d\n\n    # Archivos multimedia\n    location /media/ \x7b\n        alias " ++
  c.media_root ++
  ";\n    \x7d\n\n    # Tráfico hacia Django (Gunicorn, interno, por socket)\n    location / \x7b\n        include proxy_params;\n        proxy_pass http://unix:" ++
  socket_path c ++
  ";\n        proxy_read_timeout 300;\n    \x7d\n\x7d\n"

/-- The configuration summary printed before confirmation (lines 164–173). -/
def summary (c : DeploymentConfig) : List String :=
  [ "  Proyecto              : " ++ c.project_name
  , "  Dominio/IP            : " ++ c.domain
  , "  PUERTO PÚBLICO (Nginx): " ++ toString c.listen_port
  , "  Root proyecto         : " ++ c.project_root
  , "  Venv                  : " ++ c.venv_path
  , "  Gunicorn bin          : " ++ gunicorn_bin c
  , "  WSGI module           : " ++ c.wsgi_module
  , "  Socket Gunicorn       : " ++ socket_path c
  , "  STATIC_ROOT           : " ++ c.static_root
  , "  MEDIA_ROOT            : " ++ c.media_root ]

/-- The example URL printed at the end of a run (lines 281–287). -/
def example_url (domain : String) (listen_port : Nat) : String :=
  if domain = "_" then "http://TU_IP:" ++ toString listen_port ++ "/"
  else if listen_port = 80 then "http://" ++ domain ++ "/"
  else "http://" ++ domain ++ ":" ++ toString listen_port ++ "/"

/-- The confirmation check (lines 179–181): the answer is stripped, lowered
and compared against the single letter s. -/
def confirmAccepted (raw : String) : Bool :=
  asciiLower (pythonStrip raw) == "s"

/-- One line of operator input per prompt of `main`, in prompt order, plus
the confirmation answer. -/
structure Inputs where
  project_name_raw : String
  domain_raw : String
  listen_port_raw : String
  project_root_raw : String
  venv_path_raw : String
  linux_user_raw : String
  linux_group_raw : String
  wsgi_module_raw : String
  static_root_raw : String
  media_root_raw : String
  confirm_raw : String
deriving DecidableEq

/-- The pre-existing filesystem, as the two queries the script makes:
`os.path.exists` and `os.path.islink`. -/
structure FS where
  pathExists : String → Bool
  isLink : String → Bool

/-- The value bound to `project_name` (lines 63–69): no default. -/
def project_nameOf (inp : Inputs) : String :=
  input_with_help inp.project_name_raw none

/-- The value bound to `domain` (lines 74–79): default `"_"`. -/
def domainOf (inp : Inputs) : String :=
  input_with_help inp.domain_raw (some "_")

/-- The value bound to `listen_port_raw` (lines 82–91): default `"80"`. -/
def listen_port_rawOf (inp : Inputs) : String :=
  input_with_help inp.listen_port_raw (some "80")

/-- The value bound to `listen_port` (lines 92–96). -/
def listen_portOf (inp : Inputs) : Nat :=
  (parse_port (listen_port_rawOf inp)).1

/-- The value bound to `project_root` (lines 99–105): default
`f"/var/www/{project_name}"`. -/
def project_rootOf (inp : Inputs) : String :=
  input_with_help inp.project_root_raw (some ("/var/www/" ++ project_nameOf inp))

/-- The value bound to `venv_path` (lines 108–114): default
`os.path.join(project_root, "venv")`. -/
def venv_pathOf (inp : Inputs) : String :=
  input_with_help inp.venv_path_raw (some (ospath_join2 (project_rootOf inp) "venv"))

/-- The value bound to `linux_user` (lines 117–122): default `"www-data"`. -/
def linux_userOf (inp : Inputs) : String :=
  input_with_help inp.linux_user_raw (some "www-data")

/-- The value bound to `linux_group` (lines 123–128): default `"www-data"`. -/
def linux_groupOf (inp : Inputs) : String :=
  input_with_help inp.linux_group_raw (some "www-data")

/-- The value bound to `wsgi_module` (lines 131–138): default
`f"{project_name}.wsgi:application"`. -/
def wsgi_moduleOf (inp : Inputs) : String :=
  input_with_help inp.wsgi_module_raw (some (project_nameOf inp ++ ".wsgi:application"))

/-- The value bound to `static_root` (lines 141–146): default
`f"{project_root}/static/"`. -/
def static_rootOf (inp : Inputs) : String :=
  input_with_help inp.static_root_raw (some (project_rootOf inp ++ "/static/"))

/-- The value bound to `media_root` (lines 147–152): default
`f"{project_root}/media/"`. -/
def media_rootOf (inp : Inputs) : String :=
  input_with_help inp.media_root_raw (some (project_rootOf inp ++ "/media/"))

/-- The record of every collected value. -/
def cfgOf (inp : Inputs) : DeploymentConfig :=
  { project_name := project_nameOf inp
  , domain := domainOf inp
  , listen_port := listen_portOf inp
  , project_root := project_rootOf inp
  , venv_path := venv_pathOf inp
  , linux_user := linux_userOf inp
  , linux_group := linux_groupOf inp
  , wsgi_module := wsgi_moduleOf inp
  , static_root := static_rootOf inp
  , media_root := media_rootOf inp }

/-- The prompt-collection phase of `main` (lines 63–158): `none` when the
stripped project name is empty (the script aborts at line 71), otherwise the
collected `DeploymentConfig`. -/
def collectConfig (inp : Inputs) : Option DeploymentConfig :=
  if project_nameOf inp = "" then none else some (cfgOf inp)

/-- A state-changing action of the deployment phase: directory creation,
file write, or shell command. (Plain prints are not state changes and are
not traced.) -/
inductive Effect where
  | mkdir (path : String)
  | writeFile (path : String) (content : String)
  | runCmd (cmd : String)
deriving DecidableEq

/-- The symlink step (lines 255–259): skip with a report when the enable
path already exists as a link or file, otherwise create the symlink via
`ln -s`. -/
inductive LinkAction where
  | skip (msg : String)
  | create (cmd : String)
deriving DecidableEq

def link_action (fs : FS) (c : DeploymentConfig) : LinkAction :=
  if fs.isLink (nginx_link c) || fs.pathExists (nginx_link c) then
    LinkAction.skip ("\n-> El link " ++ nginx_link c ++ " ya existe, no se modifica.")
  else
    LinkAction.create ("ln -s " ++ nginx_conf_path c ++ " " ++ nginx_link c)

/-- The directory-creation loop (lines 186–189): each path is created when it
neither pre-exists nor was created earlier in the same loop. -/
def mkdirEffects (fs : FS) : List String → List String → List Effect
  | _, [] => []
  | created, d :: rest =>
    if fs.pathExists d || created.contains d then mkdirEffects fs created rest
    else Effect.mkdir d :: mkdirEffects fs (d :: created) rest

/-- The deployment phase after confirmation (lines 186–272), as the ordered
trace of its state-changing actions. -/
def deployEffects (fs : FS) (c : DeploymentConfig) : List Effect :=
  mkdirEffects fs [] [c.project_root, c.static_root, c.media_root]
  ++ [ Effect.writeFile (service_path c) (service_content c)
     , Effect.writeFile (nginx_conf_path c) (nginx_content c) ]
  ++ (match link_action fs c with
      | LinkAction.skip _ => []
      | LinkAction.create cmd => [Effect.runCmd cmd])
  ++ [ Effect.runCmd "systemctl daemon-reload"
     , Effect.runCmd ("systemctl enable " ++ c.project_name ++ ".service")
     , Effect.runCmd ("systemctl restart " ++ c.project_name ++ ".service")
     , Effect.runCmd "nginx -t"
     , Effect.runCmd "systemctl reload nginx" ]

/-- How a run of `main` ends: abort on empty project name (line 71), abort on
declined confirmation (line 181), or run to completion. -/
inductive Outcome where
  | abortEmptyName
  | abortDeclined
  | completed
deriving DecidableEq

/-- The process exit code for each outcome: both aborts raise
`SystemExit(<message string>)`, which exits with code 1; completion exits 0. -/
def exitCode : Outcome → Nat
  | Outcome.completed => 0
  | _ => 1

/-- `main` (lines 56–288): collect the configuration, ask for confirmation,
and on acceptance perform the deployment; the result is the outcome together
with the trace of state-changing actions. -/
def mainRun (fs : FS) (inp : Inputs) : Outcome × List Effect :=
  match collectConfig inp with
  | none => (Outcome.abortEmptyName, [])
  | some c =>
    if confirmAccepted inp.confirm_raw then (Outcome.completed, deployEffects fs c)
    else (Outcome.abortDeclined, [])

/-- Substring containment, on the character data of the strings. -/
def strContains (hay needle : String) : Prop :=
  needle.data <:+: hay.data

instance (hay needle : String) : Decidable (strContains hay needle) :=
  List.decidableInfix _ _

/-- A filesystem on which every queried path already exists. -/
def fsAll : FS := { pathExists := fun _ => true, isLink := fun _ => true }

/-- A filesystem on which no queried path exists yet. -/
def fsNone : FS := { pathExists := fun _ => false, isLink := fun _ => false }

/-- The configuration of the spec's end-to-end scenario: project `infohub`,
public port 8080, every other prompt left at its default. -/
def cfgInfohub : DeploymentConfig :=
  { project_name := "infohub"
  , domain := "_"
  , listen_port := 8080
  , project_root := "/var/www/infohub"
  , venv_path := "/var/www/infohub/venv"
  , linux_user := "www-data"
  , linux_group := "www-data"
  , wsgi_module := "infohub.wsgi:application"
  , static_root := "/var/www/infohub/static/"
  , media_root := "/var/www/infohub/media/" }

/-- An input script: project `infohub`, a named domain, a non-numeric port
answer, every other prompt defaulted, confirmation accepted. -/
def inpAbc : Inputs :=
  { project_name_raw := "infohub"
  , domain_raw := "midominio.com"
  , listen_port_raw := "abc"
  , project_root_raw := ""
  , venv_path_raw := ""
  , linux_user_raw := ""
  , linux_group_raw := ""
  , wsgi_module_raw := ""
  , static_root_raw := ""
  , media_root_raw := ""
  , confirm_raw := "s" }

/-- The configuration `inpAbc` collects: the non-numeric port answer became
80 and every defaulted field took its derived value. -/
def cfgAbc : DeploymentConfig :=
  { project_name := "infohub"
  , domain := "midominio.com"
  , listen_port := 80
  , project_root := "/var/www/infohub"
  , venv_path := "/var/www/infohub/venv"
  , linux_user := "www-data"
  , linux_group := "www-data"
  , wsgi_module := "infohub.wsgi:application"
  , static_root := "/var/www/infohub/static/"
  , media_root := "/var/www/infohub/media/" }

/-- An input script with everything defaulted and confirmation answered
with upper-case `S`. -/
def inpUpperS : Inputs :=
  { project_name_raw := "infohub"
  , domain_raw := ""
  , listen_port_raw := ""
  , project_root_raw := ""
  , venv_path_raw := ""
  , linux_user_raw := ""
  , linux_group_raw := ""
  , wsgi_module_raw := ""
  , static_root_raw := ""
  , media_root_raw := ""
  , confirm_raw := "S" }

/-- An input script with everything defaulted and confirmation declined
with `n`. -/
def inpDecline : Inputs :=
  { project_name_raw := "infohub"
  , domain_raw := ""
  , listen_port_raw := ""
  , project_root_raw := ""
  , venv_path_raw := ""
  , linux_user_raw := ""
  , linux_group_raw := ""
  , wsgi_module_raw := ""
  , static_root_raw := ""
  , media_root_raw := ""
  , confirm_raw := "n" }

/-- An input script whose project-name answer is the empty line. -/
def inpEmptyName : Inputs :=
  { project_name_raw := ""
  , domain_raw := ""
  , listen_port_raw := ""
  , project_root_raw := ""
  , venv_path_raw := ""
  , linux_user_raw := ""
  , linux_group_raw := ""
  , wsgi_module_raw := ""
  , static_root_raw := ""
  , media_root_raw := ""
  , confirm_raw := "s" }

/-- An input script whose project-name answer is only whitespace. -/
def inpSpaceName : Inputs :=
  { project_name_raw := " \t "
  , domain_raw := ""
  , listen_port_raw := ""
  , project_root_raw := ""
  , venv_path_raw := ""
  , linux_user_raw := ""
  , linux_group_raw := ""
  , wsgi_module_raw := ""
  , static_root_raw := ""
  , media_root_raw := ""
  , confirm_raw := "s" }

/-- An input script with every prompt defaulted and confirmation accepted. -/
def inpDefault : Inputs :=
  { project_name_raw := "infohub"
  , domain_raw := ""
  , listen_port_raw := ""
  , project_root_raw := ""
  , venv_path_raw := ""
  , linux_user_raw := ""
  , linux_group_raw := ""
  , wsgi_module_raw := ""
  , static_root_raw := ""
  , media_root_raw := ""
  , confirm_raw := "s" }

/-- The configuration `inpDefault` collects. -/
def cfgDefault : DeploymentConfig :=
  { project_name := "infohub"
  , domain := "_"
  , listen_port := 80
  , project_root := "/var/www/infohub"
  , venv_path := "/var/www/infohub/venv"
  , linux_user := "www-data"
  , linux_group := "www-data"
  , wsgi_module := "infohub.wsgi:application"
  , static_root := "/var/www/infohub/static/"
  , media_root := "/var/www/infohub/media/" }

/-!
## Helper lemmas
-/

/-- Exhibiting a split `s = p ++ t ++ q` shows `t` is contained in `s`. -/
theorem strContains_intro (p q : String) {t s : String} (h : s = p ++ t ++ q) :
    strContains s t := by
  subst h
  show t.data <:+: _
  rw [String.data_append, String.data_append]
  exact List.infix_append _ _ _

/-- A string of Python whitespace strips to the empty string. -/
theorem pythonStrip_of_space (s : String) (h : s.data.all isPySpace = true) :
    pythonStrip s = "" := by
  unfold pythonStrip
  have h1 : s.data.dropWhile isPySpace = [] :=
    List.dropWhile_eq_nil_iff.mpr fun x hx => List.all_eq_true.mp h x hx
  rw [h1]
  rfl

/-- `os.path.join` inserts a separator when the second component is relative
and the first is nonempty without a trailing slash. -/
theorem ospath_join2_eq (a b : String) (hb : b.data.head? ≠ some '/')
    (ha : a.data ≠ []) (ha2 : a.data.getLast? ≠ some '/') :
    ospath_join2 a b = a ++ "/" ++ b := by
  unfold ospath_join2
  rw [if_neg hb, if_neg (by rintro (h | h); exacts [ha h, ha2 h])]

/-- For a nonempty `venv_path` without a trailing slash, the derived
Gunicorn binary path is literally `venv_path ++ "/bin/gunicorn"`. -/
theorem gunicorn_bin_eq (c : DeploymentConfig) (h1 : c.venv_path ≠ "")
    (h2 : c.venv_path.data.getLast? ≠ some '/') :
    gunicorn_bin c = c.venv_path ++ "/bin/gunicorn" := by
  have hv : c.venv_path.data ≠ [] := fun h => h1 (String.ext (by rw [h]))
  have e1 : ospath_join2 c.venv_path "bin" = c.venv_path ++ "/" ++ "bin" :=
    ospath_join2_eq _ _ (by decide) hv h2
  have hbin : (c.venv_path ++ "/" ++ "bin").data ≠ [] := by
    rw [String.data_append]
    simp
  have hbin2 : (c.venv_path ++ "/" ++ "bin").data.getLast? = some 'n' := by
    rw [String.data_append, List.getLast?_append]
    rfl
  have e2 : ospath_join2 (c.venv_path ++ "/" ++ "bin") "gunicorn"
      = c.venv_path ++ "/" ++ "bin" ++ "/" ++ "gunicorn" :=
    ospath_join2_eq _ _ (by decide) hbin (by rw [hbin2]; decide)
  show ospath_join2 (ospath_join2 c.venv_path "bin") "gunicorn" = _
  rw [e1, e2]
  apply String.ext
  simp only [String.data_append, List.append_assoc]
  rfl

/-- A successfully collected configuration is exactly `cfgOf`. -/
theorem collect_eq_cfgOf (inp : Inputs) (c : DeploymentConfig)
    (hc : collectConfig inp = some c) : c = cfgOf inp := by
  unfold collectConfig at hc
  by_cases h : project_nameOf inp = ""
  · rw [if_pos h] at hc; cases hc
  · rw [if_neg h] at hc; exact (Option.some.inj hc).symm

/-- When the project name collects nonempty, `mainRun` reduces to the
confirmation branch over the collected configuration. -/
theorem mainRun_eq_of_collect (fs : FS) (inp : Inputs) (c : DeploymentConfig)
    (hc : collectConfig inp = some c) :
    mainRun fs inp =
      if confirmAccepted inp.confirm_raw then (Outcome.completed, deployEffects fs c)
      else (Outcome.abortDeclined, []) := by
  unfold mainRun
  rw [hc]

/-- The rendered virtual host contains its listen directive. -/
theorem nginxHas_listen (c : DeploymentConfig) :
    strContains (nginx_content c) ("listen " ++ toString c.listen_port ++ ";") := by
  apply strContains_intro
    "server \x7b\n    # PUERTO PÚBLICO: aquí escucha Nginx hacia Internet\n    "
    ("\n    server_name " ++ c.domain ++
      ";\n\n    # Archivos estáticos\n    location /static/ \x7b\n        alias " ++
      c.static_root ++
      ";\n    \x7d\n\n    # Archivos multimedia\n    location /media/ \x7b\n        alias " ++
      c.media_root ++
      ";\n    \x7d\n\n    # Tráfico hacia Django (Gunicorn, interno, por socket)\n    location / \x7b\n        include proxy_params;\n        proxy_pass http://unix:" ++
      socket_path c ++
      ";\n        proxy_read_timeout 300;\n    \x7d\n\x7d\n")
  unfold nginx_content
  apply String.ext
  simp only [String.data_append, List.append_assoc]
  rfl

/-- The rendered virtual host contains its server-name directive. -/
theorem nginxHas_server_name (c : DeploymentConfig) :
    strContains (nginx_content c) ("server_name " ++ c.domain ++ ";") := by
  apply strContains_intro
    ("server \x7b\n    # PUERTO PÚBLICO: aquí escucha Nginx hacia Internet\n    listen " ++
      toString c.listen_port ++ ";\n    ")
    ("\n\n    # Archivos estáticos\n    location /static/ \x7b\n        alias " ++
      c.static_root ++
      ";\n    \x7d\n\n    # Archivos multimedia\n    location /media/ \x7b\n        alias " ++
      c.media_root ++
      ";\n    \x7d\n\n    # Tráfico hacia Django (Gunicorn, interno, por socket)\n    location / \x7b\n        include proxy_params;\n        proxy_pass http://unix:" ++
      socket_path c ++
      ";\n        proxy_read_timeout 300;\n    \x7d\n\x7d\n")
  unfold nginx_content
  apply String.ext
  simp only [String.data_append, List.append_assoc]
  rfl

/-- The rendered virtual host contains its static-alias location block. -/
theorem nginxHas_static (c : DeploymentConfig) :
    strContains (nginx_content c)
      ("location /static/ \x7b\n        alias " ++ c.static_root ++ ";\n    \x7d") := by
  apply strContains_intro
    ("server \x7b\n    # PUERTO PÚBLICO: aquí escucha Nginx hacia Internet\n    listen " ++
      toString c.listen_port ++ ";\n    server_name " ++ c.domain ++
      ";\n\n    # Archivos estáticos\n    ")
    ("\n\n    # Archivos multimedia\n    location /media/ \x7b\n        alias " ++
      c.media_root ++
      ";\n    \x7d\n\n    # Tráfico hacia Django (Gunicorn, interno, por socket)\n    location / \x7b\n        include proxy_params;\n        proxy_pass http://unix:" ++
      socket_path c ++
      ";\n        proxy_read_timeout 300;\n    \x7d\n\x7d\n")
  unfold nginx_content
  apply String.ext
  simp only [String.data_append, List.append_assoc]
  rfl

/-- The rendered virtual host contains its media-alias location block. -/
theorem nginxHas_media (c : DeploymentConfig) :
    strContains (nginx_content c)
      ("location /media/ \x7b\n        alias " ++ c.media_root ++ ";\n    \x7d") := by
  apply strContains_intro
    ("server \x7b\n    # PUERTO PÚBLICO: aquí escucha Nginx hacia Internet\n    listen " ++
      toString c.listen_port ++ ";\n    server_name " ++ c.domain ++
      ";\n\n    # Archivos estáticos\n    location /static/ \x7b\n        alias " ++
      c.static_root ++ ";\n    \x7d\n\n    # Archivos multimedia\n    ")
    ("\n\n    # Tráfico hacia Django (Gunicorn, interno, por socket)\n    location / \x7b\n        include proxy_params;\n        proxy_pass http://unix:" ++
      socket_path c ++
      ";\n        proxy_read_timeout 300;\n    \x7d\n\x7d\n")
  unfold nginx_content
  apply String.ext
  simp only [String.data_append, List.append_assoc]
  rfl

/-- The rendered virtual host contains its catch-all proxy location block. -/
theorem nginxHas_proxy (c : DeploymentConfig) :
    strContains (nginx_content c)
      ("location / \x7b\n        include proxy_params;\n        proxy_pass http://unix:" ++
        socket_path c ++ ";\n        proxy_read_timeout 300;\n    \x7d") := by
  apply strContains_intro
    ("server \x7b\n    # PUERTO PÚBLICO: aquí escucha Nginx hacia Internet\n    listen " ++
      toString c.listen_port ++ ";\n    server_name " ++ c.domain ++
      ";\n\n    # Archivos estáticos\n    location /static/ \x7b\n        alias " ++
      c.static_root ++
      ";\n    \x7d\n\n    # Archivos multimedia\n    location /media/ \x7b\n        alias " ++
      c.media_root ++
      ";\n    \x7d\n\n    # Tráfico hacia Django (Gunicorn, interno, por socket)\n    ")
    "\n\x7d\n"
  unfold nginx_content
  apply String.ext
  simp only [String.data_append, List.append_assoc]
  rfl

/-!
## Claims
-/

set_option maxRecDepth 400000 in
/-- C1 counterexample: at the spec's own scenario configuration the rendered
unit descriptor nowhere contains the start command as one string — the
ExecStart directive is split across backslash-continued lines — so no line,
in particular not the ExecStart line, contains it. -/
theorem c1_counterexample :
    ¬ strContains (service_content cfgInfohub)
      "/var/www/infohub/venv/bin/gunicorn --workers 3 --bind unix:/run/gunicorn-infohub.sock infohub.wsgi:application" := by
  decide

/-- C1 (amended): for every configuration whose venv path is nonempty and
has no trailing slash, the rendered unit descriptor contains the ExecStart
directive with the start command split across backslash-continued lines:
`ExecStart=<venv_path>/bin/gunicorn \ / --workers 3 \ /
--bind unix:/run/gunicorn-<project_name>.sock \ / <wsgi_module>`, which is
the claimed command `<venv_path>/bin/gunicorn --workers 3 --bind
unix:/run/gunicorn-<project_name>.sock <wsgi_module>` with each separating
space replaced by a backslash-newline continuation. -/
theorem c1_execstart_block (c : DeploymentConfig) (h1 : c.venv_path ≠ "")
    (h2 : c.venv_path.data.getLast? ≠ some '/') :
    strContains (service_content c)
      ("ExecStart=" ++ c.venv_path ++
        "/bin/gunicorn \\\n    --workers 3 \\\n    --bind unix:/run/gunicorn-" ++
        c.project_name ++ ".sock \\\n    " ++ c.wsgi_module ++ "\n") := by
  apply strContains_intro
    ("[Unit]\nDescription=Gunicorn service for " ++ c.project_name ++
      "\nAfter=network.target\n\n[Service]\nUser=" ++ c.linux_user ++
      "\nGroup=" ++ c.linux_group ++
      "\nWorkingDirectory=" ++ c.project_root ++
      "\nEnvironment=\"PATH=" ++ c.venv_path ++ "/bin\"\n")
    "\nRestart=always\nRestartSec=5\n\n[Install]\nWantedBy=multi-user.target\n"
  unfold service_content socket_path
  rw [gunicorn_bin_eq c h1 h2]
  apply String.ext
  simp only [String.data_append, List.append_assoc]
  rfl

/-- C1 witness: the amended ExecStart containment at the concrete scenario
configuration. -/
theorem c1_execstart_block_witness :
    strContains (service_content cfgInfohub)
      ("ExecStart=" ++ cfgInfohub.venv_path ++
        "/bin/gunicorn \\\n    --workers 3 \\\n    --bind unix:/run/gunicorn-" ++
        cfgInfohub.project_name ++ ".sock \\\n    " ++ cfgInfohub.wsgi_module ++ "\n") :=
  c1_execstart_block cfgInfohub (by decide) (by decide)

set_option maxRecDepth 400000 in
/-- C2 counterexample: the confirmation check lowercases its input, so the
upper-case letter S is also accepted — the run completes and performs
filesystem changes instead of aborting. -/
theorem c2_counterexample :
    confirmAccepted "S" = true
    ∧ (mainRun fsNone inpUpperS).1 = Outcome.completed
    ∧ (mainRun fsNone inpUpperS).2 ≠ [] := by
  decide

/-- C2 (amended): the confirmation check is case-insensitive on the single
affirmative letter: after a nonempty project name, the run completes exactly
when the stripped, lowercased answer is the letter s; any other answer
aborts the run with no filesystem change and no command executed. -/
theorem c2_confirmation (fs : FS) (inp : Inputs)
    (hname : project_nameOf inp ≠ "") :
    ((mainRun fs inp).1 = Outcome.completed
      ↔ asciiLower (pythonStrip inp.confirm_raw) = "s")
    ∧ (asciiLower (pythonStrip inp.confirm_raw) ≠ "s" →
        mainRun fs inp = (Outcome.abortDeclined, [])) := by
  have hc : collectConfig inp = some (cfgOf inp) := by
    unfold collectConfig
    rw [if_neg hname]
  rw [mainRun_eq_of_collect fs inp _ hc]
  by_cases hs : asciiLower (pythonStrip inp.confirm_raw) = "s"
  · have hca : confirmAccepted inp.confirm_raw = true := by
      simp [confirmAccepted, hs]
    rw [hca, if_pos rfl]
    exact ⟨⟨fun _ => hs, fun _ => rfl⟩, fun hn => absurd hs hn⟩
  · have hca : confirmAccepted inp.confirm_raw = false := by
      simp [confirmAccepted, hs]
    rw [hca, if_neg Bool.false_ne_true]
    exact ⟨⟨fun hcontr => absurd hcontr (by decide), fun hcontr => absurd hcontr hs⟩,
           fun _ => rfl⟩

/-- C2 witness: declining with `n` aborts with an empty effect trace. -/
theorem c2_confirmation_witness :
    mainRun fsNone inpDecline = (Outcome.abortDeclined, []) :=
  (c2_confirmation fsNone inpDecline (by decide)).2 (by decide)

set_option maxRecDepth 400000 in
/-- C3 counterexample: with a named domain and the non-numeric port answer
`abc`, the effective port is 80, yet the reported example URL is the
portless `http://midominio.com/`, in which the value 80 does not appear. -/
theorem c3_counterexample :
    collectConfig inpAbc = some cfgAbc
    ∧ cfgAbc.listen_port = 80
    ∧ example_url cfgAbc.domain cfgAbc.listen_port = "http://midominio.com/"
    ∧ ¬ strContains (example_url cfgAbc.domain cfgAbc.listen_port) "80" := by
  decide

/-- C3 (amended): a listen-port answer that is nonempty after stripping and
not a digit string triggers the warning (second component of `parse_port`)
and makes the effective port 80 with no re-prompt; this 80 appears in the
rendered reverse-proxy descriptor (`listen 80;`) and in the summary, and the
example URL is computed with port 80: the placeholder form
`http://TU_IP:80/` for the wildcard domain and the portless
`http://<domain>/` otherwise. -/
theorem c3_nonnumeric_port (inp : Inputs) (c : DeploymentConfig)
    (hne : pythonStrip inp.listen_port_raw ≠ "")
    (hnd : pyIsdigit (pythonStrip inp.listen_port_raw) = false)
    (hc : collectConfig inp = some c) :
    parse_port (listen_port_rawOf inp) = (80, true)
    ∧ c.listen_port = 80
    ∧ strContains (nginx_content c) "listen 80;"
    ∧ "  PUERTO PÚBLICO (Nginx): 80" ∈ summary c
    ∧ example_url c.domain c.listen_port
        = (if c.domain = "_" then "http://TU_IP:80/"
           else "http://" ++ c.domain ++ "/") := by
  have hraw : listen_port_rawOf inp = pythonStrip inp.listen_port_raw := by
    show (if pythonStrip inp.listen_port_raw = "" then "80"
          else pythonStrip inp.listen_port_raw) = _
    rw [if_neg hne]
  have hpp : parse_port (listen_port_rawOf inp) = (80, true) := by
    rw [hraw]
    unfold parse_port
    rw [hnd]
    rfl
  have hport : c.listen_port = 80 := by
    rw [collect_eq_cfgOf inp c hc]
    show (parse_port (listen_port_rawOf inp)).1 = 80
    rw [hpp]
  refine ⟨hpp, hport, ?_, ?_, ?_⟩
  · have h4 := nginxHas_listen c
    rw [hport, show ("listen " ++ toString (80 : Nat) ++ ";" : String) = "listen 80;"
          from by decide] at h4
    exact h4
  · rw [show ("  PUERTO PÚBLICO (Nginx): 80" : String)
          = "  PUERTO PÚBLICO (Nginx): " ++ toString c.listen_port
        from by rw [hport]; rfl]
    simp [summary]
  · rw [hport]
    unfold example_url
    by_cases hd : c.domain = "_"
    · rw [if_pos hd, if_pos hd]
      rfl
    · rw [if_neg hd, if_neg hd, if_pos rfl]

/-- C3 witness: the amended statement at the concrete non-numeric input. -/
theorem c3_nonnumeric_port_witness :
    parse_port (listen_port_rawOf inpAbc) = (80, true)
    ∧ cfgAbc.listen_port = 80
    ∧ strContains (nginx_content cfgAbc) "listen 80;"
    ∧ "  PUERTO PÚBLICO (Nginx): 80" ∈ summary cfgAbc
    ∧ example_url cfgAbc.domain cfgAbc.listen_port
        = (if cfgAbc.domain = "_" then "http://TU_IP:80/"
           else "http://" ++ cfgAbc.domain ++ "/") :=
  c3_nonnumeric_port inpAbc cfgAbc (by decide) (by decide) (by decide)

/-- C4: for every configuration, the rendered virtual-host descriptor
contains a listen directive on listen_port, a server_name directive on
domain, a location block aliasing /static/ to static_root, a location block
aliasing /media/ to media_root, and a catch-all location block with
`include proxy_params`, `proxy_pass http://unix:<socket_path>` and
`proxy_read_timeout 300`. -/
theorem c4_nginx_descriptor (c : DeploymentConfig) :
    strContains (nginx_content c) ("listen " ++ toString c.listen_port ++ ";")
    ∧ strContains (nginx_content c) ("server_name " ++ c.domain ++ ";")
    ∧ strContains (nginx_content c)
        ("location /static/ \x7b\n        alias " ++ c.static_root ++ ";\n    \x7d")
    ∧ strContains (nginx_content c)
        ("location /media/ \x7b\n        alias " ++ c.media_root ++ ";\n    \x7d")
    ∧ strContains (nginx_content c)
        ("location / \x7b\n        include proxy_params;\n        proxy_pass http://unix:" ++
          socket_path c ++ ";\n        proxy_read_timeout 300;\n    \x7d") :=
  ⟨nginxHas_listen c, nginxHas_server_name c, nginxHas_static c,
   nginxHas_media c, nginxHas_proxy c⟩

/-- C5: an empty (stripped) project name makes the run abort with exit code
1 before any directory creation, file write or external command. -/
theorem c5_empty_project_name (fs : FS) (inp : Inputs)
    (h : pythonStrip inp.project_name_raw = "") :
    mainRun fs inp = (Outcome.abortEmptyName, [])
    ∧ exitCode (mainRun fs inp).1 = 1 := by
  have h3 : collectConfig inp = none := by
    unfold collectConfig
    rw [if_pos (show project_nameOf inp = "" from h)]
  have hm : mainRun fs inp = (Outcome.abortEmptyName, []) := by
    unfold mainRun
    rw [h3]
  exact ⟨hm, by rw [hm]; rfl⟩

/-- C5 witness: the empty project-name input aborts with no effects. -/
theorem c5_empty_project_name_witness :
    mainRun fsNone inpEmptyName = (Outcome.abortEmptyName, [])
    ∧ exitCode (mainRun fsNone inpEmptyName).1 = 1 :=
  c5_empty_project_name fsNone inpEmptyName (by decide)

/-- C6: any confirmation answer the script does not accept (stripped and
lowercased, not the letter s — e.g. the empty answer or n) terminates the
run before any directory creation, file write or external command. -/
theorem c6_decline_no_effects (fs : FS) (inp : Inputs)
    (h : asciiLower (pythonStrip inp.confirm_raw) ≠ "s") :
    (mainRun fs inp).2 = [] ∧ (mainRun fs inp).1 ≠ Outcome.completed := by
  have hca : confirmAccepted inp.confirm_raw = false := by
    simp [confirmAccepted, h]
  unfold mainRun
  cases hcc : collectConfig inp with
  | none => exact ⟨rfl, fun hh => Outcome.noConfusion hh⟩
  | some c =>
    rw [hca]
    exact ⟨rfl, fun hh => Outcome.noConfusion hh⟩

/-- C6 witness: declining with `n` leaves the effect trace empty. -/
theorem c6_decline_no_effects_witness :
    (mainRun fsNone inpDecline).2 = [] ∧ (mainRun fsNone inpDecline).1 ≠ Outcome.completed :=
  c6_decline_no_effects fsNone inpDecline (by decide)

/-- C7: when the enable path exists (as symlink or file) the activator
reports skipping, the trace contains no symlink-creation command and the
run does not fail; otherwise it creates the symlink pointing at the
sites-available file. -/
theorem c7_symlink_step (fs : FS) (c : DeploymentConfig) :
    ((fs.isLink (nginx_link c) || fs.pathExists (nginx_link c)) = true →
      link_action fs c
          = LinkAction.skip ("\n-> El link " ++ nginx_link c ++ " ya existe, no se modifica.")
      ∧ deployEffects fs c =
          mkdirEffects fs [] [c.project_root, c.static_root, c.media_root]
          ++ [ Effect.writeFile (service_path c) (service_content c)
             , Effect.writeFile (nginx_conf_path c) (nginx_content c) ]
          ++ [ Effect.runCmd "systemctl daemon-reload"
             , Effect.runCmd ("systemctl enable " ++ c.project_name ++ ".service")
             , Effect.runCmd ("systemctl restart " ++ c.project_name ++ ".service")
             , Effect.runCmd "nginx -t"
             , Effect.runCmd "systemctl reload nginx" ])
    ∧ ((fs.isLink (nginx_link c) || fs.pathExists (nginx_link c)) = false →
      link_action fs c
          = LinkAction.create ("ln -s " ++ nginx_conf_path c ++ " " ++ nginx_link c)
      ∧ Effect.runCmd ("ln -s " ++ nginx_conf_path c ++ " " ++ nginx_link c)
          ∈ deployEffects fs c) := by
  constructor
  · intro h
    have hla : link_action fs c
        = LinkAction.skip ("\n-> El link " ++ nginx_link c ++ " ya existe, no se modifica.") := by
      unfold link_action
      rw [if_pos h]
    refine ⟨hla, ?_⟩
    unfold deployEffects
    rw [hla]
    simp
  · intro h
    have hla : link_action fs c
        = LinkAction.create ("ln -s " ++ nginx_conf_path c ++ " " ++ nginx_link c) := by
      unfold link_action
      rw [if_neg (by rw [h]; exact Bool.false_ne_true)]
    refine ⟨hla, ?_⟩
    unfold deployEffects
    rw [hla]
    simp

/-- C7 witness: on a filesystem where the enable path exists, the activator
reports skipping. -/
theorem c7_symlink_step_witness :
    link_action fsAll cfgInfohub
      = LinkAction.skip ("\n-> El link " ++ nginx_link cfgInfohub ++ " ya existe, no se modifica.") :=
  ((c7_symlink_step fsAll cfgInfohub).1 rfl).1

/-- C8: an empty domain answer collects as the wildcard value; the example
URL has the public-IP-placeholder form with the port when the domain is the
wildcard, the portless form for a named domain on port 80, and the explicit
port form for a named domain on any other port. -/
theorem c8_example_url (inp : Inputs) (c : DeploymentConfig) (d : String) (p : Nat)
    (hc : collectConfig inp = some c) (hd : pythonStrip inp.domain_raw = "") :
    c.domain = "_"
    ∧ example_url "_" p = "http://TU_IP:" ++ toString p ++ "/"
    ∧ (d ≠ "_" → example_url d 80 = "http://" ++ d ++ "/")
    ∧ (d ≠ "_" → p ≠ 80 → example_url d p = "http://" ++ d ++ ":" ++ toString p ++ "/") := by
  refine ⟨?_, ?_, ?_, ?_⟩
  · rw [collect_eq_cfgOf inp c hc]
    show domainOf inp = "_"
    simp [domainOf, input_with_help, hd]
  · unfold example_url
    rw [if_pos rfl]
  · intro hdne
    unfold example_url
    rw [if_neg hdne, if_pos rfl]
  · intro hdne hp
    unfold example_url
    rw [if_neg hdne, if_neg hp]

/-- C8 witness: the URL computation at concrete domains and ports, and the
wildcard default for an empty domain answer. -/
theorem c8_example_url_witness :
    cfgDefault.domain = "_"
    ∧ example_url "_" 8080 = "http://TU_IP:8080/"
    ∧ example_url "midominio.com" 80 = "http://midominio.com/"
    ∧ example_url "midominio.com" 8080 = "http://midominio.com:8080/" := by
  have h := c8_example_url inpDefault cfgDefault "midominio.com" 8080 (by decide) (by decide)
  exact ⟨h.1, by rw [h.2.1]; rfl, by rw [h.2.2.1 (by decide)]; rfl,
         by rw [h.2.2.2 (by decide) (by decide)]; rfl⟩

/-- C9: every prompted value is stripped before the emptiness check and
default substitution: a whitespace-only answer to an optional field yields
the default, and a whitespace-only project name aborts the run before any
effect. -/
theorem c9_strip_whitespace (raw d : String) (fs : FS) (inp : Inputs)
    (hraw : raw.data.all isPySpace = true)
    (hname : inp.project_name_raw.data.all isPySpace = true) :
    input_with_help raw (some d) = d
    ∧ input_with_help raw none = ""
    ∧ mainRun fs inp = (Outcome.abortEmptyName, []) := by
  have h1 : pythonStrip raw = "" := pythonStrip_of_space raw hraw
  have h2 : pythonStrip inp.project_name_raw = "" := pythonStrip_of_space _ hname
  have h3 : collectConfig inp = none := by
    unfold collectConfig
    rw [if_pos (show project_nameOf inp = "" from h2)]
  refine ⟨?_, h1, ?_⟩
  · show (if pythonStrip raw = "" then d else pythonStrip raw) = d
    rw [if_pos h1]
  · unfold mainRun
    rw [h3]

/-- C9 witness: a three-space answer takes the default, and a whitespace
project name aborts. -/
theorem c9_strip_whitespace_witness :
    input_with_help "   " (some "www-data") = "www-data"
    ∧ input_with_help "   " none = ""
    ∧ mainRun fsNone inpSpaceName = (Outcome.abortEmptyName, []) :=
  c9_strip_whitespace "   " "www-data" fsNone inpSpaceName (by decide) (by decide)

/-- C10: only digit-only strings are parsed as the port — any other answer
(including signed or decimal forms) falls back to 80 — the collected
listen_port is exactly the parse result, and as an integer it is never
negative. -/
theorem c10_port_digits (raw : String) (inp : Inputs) (c : DeploymentConfig)
    (hc : collectConfig inp = some c) :
    (pyIsdigit (input_with_help raw (some "80")) = false →
      parse_port (input_with_help raw (some "80")) = (80, true))
    ∧ (pyIsdigit (input_with_help raw (some "80")) = true →
      parse_port (input_with_help raw (some "80"))
        = (decimalValue (input_with_help raw (some "80")), false))
    ∧ c.listen_port = (parse_port (listen_port_rawOf inp)).1
    ∧ (0 : Int) ≤ (c.listen_port : Int) := by
  refine ⟨?_, ?_, ?_, ?_⟩
  · intro h
    unfold parse_port
    rw [h]
    rfl
  · intro h
    unfold parse_port
    rw [h]
    rfl
  · rw [collect_eq_cfgOf inp c hc]
    rfl
  · exact Int.natCast_nonneg _

/-- C10 witness: the signed and decimal answers fall back to 80, and the
default input collects port 80. -/
theorem c10_port_digits_witness :
    parse_port (input_with_help "-5" (some "80")) = (80, true)
    ∧ parse_port (input_with_help "8.0" (some "80")) = (80, true)
    ∧ cfgDefault.listen_port = (parse_port (listen_port_rawOf inpDefault)).1
    ∧ (0 : Int) ≤ (cfgDefault.listen_port : Int) :=
  ⟨(c10_port_digits "-5" inpDefault cfgDefault (by decide)).1 (by decide),
   (c10_port_digits "8.0" inpDefault cfgDefault (by decide)).1 (by decide),
   (c10_port_digits "x" inpDefault cfgDefault (by decide)).2.2.1,
   (c10_port_digits "x" inpDefault cfgDefault (by decide)).2.2.2⟩
